import Mathlib

/-!
Verification development for `PremiumComparator.py`, the premium
reconciliation engine of the Premium_Comparision_Policy_Level repository.

The Python source is shallowly embedded: each pandas-based transformation
step is rendered as a pure Lean function over explicit table values.
Cell values that the program only passes around are modelled as `String`;
premium values that the program sums and compares are modelled as `Int`
(every premium value a claim mentions is an integer, on which the
program's float/int arithmetic agrees exactly with integer arithmetic).  String primitives are written
directly on the underlying character lists so that every definition
evaluates inside the kernel.
-/

namespace PremiumComparator

/-- Python `str.lower()` on a string value. -/
def lowerStr (s : String) : String := ⟨s.data.map Char.toLower⟩

/-- The surrounding-whitespace characters stripped by Python `str.strip()`. -/
def isSpaceChar (c : Char) : Bool := c == ' ' || c == '\t' || c == '\n' || c == '\r'

/-- Strip leading and trailing whitespace from a character list. -/
def trimChars (l : List Char) : List Char :=
  ((l.dropWhile isSpaceChar).reverse.dropWhile isSpaceChar).reverse

/-- Embeds the pandas idiom `.str.strip().str.lower()` (and, on values,
`.astype(str).str.strip().str.lower()` — our cells are already strings). -/
def pyStripLower (s : String) : String := ⟨(trimChars s.data).map Char.toLower⟩

/-- Does `needle` occur at the start of `hay`? -/
def charsLead : List Char → List Char → Bool
  | [], _ => true
  | _ :: _, [] => false
  | a :: as, b :: bs => a == b && charsLead as bs

/-- Python `s.startswith(p)`. -/
def strLead (p s : String) : Bool := charsLead p.data s.data

/-- Does `needle` occur contiguously anywhere in `hay`? This is the
Python membership test `needle in hay` on strings, on exploded characters. -/
def charsContain (needle hay : List Char) : Bool :=
  charsLead needle hay ||
    match hay with
    | [] => false
    | _ :: t => charsContain needle t

/-! ## HeaderLocator — `DataExtractor.extract_sheet_data`, lines 26–37 -/

/-- One iteration of the header-search loop (lines 31–32):
`row_str = ' '.join(sample_df.iloc[i].astype(str).str.lower())` followed by
`'total premium' in row_str and 'policy number' in row_str`. -/
def rowMatches (cells : List String) : Bool :=
  let row_str :=
    match cells.map lowerStr with
    | [] => ""
    | c :: cs => cs.foldl (fun acc x => acc ++ " " ++ x) c
  charsContain "total premium".data row_str.data
    && charsContain "policy number".data row_str.data

/-- Lines 28–37: scan the sampled rows in order, return the index of the
first row satisfying `rowMatches`; default to `0` when none does. -/
def headerRowIndex (sample : List (List String)) : Nat :=
  match sample.findIdx? rowMatches with
  | some i => i
  | none => 0

/-! ## SheetExtractor — `DataExtractor`, lines 23–73 -/

/-- A raw sheet as the abstract tabular reader delivers it: its name and
its raw rows (each a list of stringified cells, no header assumed).
`read_excel(header=h)` is modelled as: row `h` becomes the column list,
the rows below it become the data rows. -/
structure Sheet where
  name : String
  raw : List (List String)
deriving DecidableEq

/-- The 5-row no-header sample of line 27 (`nrows=5`). -/
def sheetSample (s : Sheet) : List (List String) := s.raw.take 5

/-- The normalized column names after re-reading with the located header
row (lines 40–41: `df.columns.str.strip().str.lower()`). -/
def locatedCols (s : Sheet) : List String :=
  (s.raw.getD (headerRowIndex (sheetSample s)) []).map pyStripLower

/-- The data rows below the located header row. -/
def locatedDataRows (s : Sheet) : List (List String) :=
  s.raw.drop (headerRowIndex (sheetSample s) + 1)

/-- Line 44: `'policy number' not in df.columns or 'total premium' not in
df.columns` decides whether the sheet is extracted (here stated positively). -/
def requiredColsPresent (s : Sheet) : Bool :=
  (locatedCols s).contains "policy number" && (locatedCols s).contains "total premium"

/-- Cell of a named column in a data row: `df[name]` positionally, via the
index of `name` in the normalized column list. -/
def getCol (cols : List String) (row : List String) (name : String) : String :=
  row.getD (cols.indexOf name) ""

/-- One extracted row (lines 48–56). At this stage the premium cell is
still the raw cell value; `Datatype` records the runtime type name of the
premium cell — in this string-cell model that name is `str`. -/
structure ExtRow where
  year : String
  insurer : String
  type : String
  policyNumber : String
  premium : String
  datatype : String
deriving DecidableEq

/-- `DataExtractor.extract_sheet_data` (lines 25–58): locate the header,
re-read, normalize column names, reject the sheet (`None`) when a required
column is absent, otherwise emit one row per data row with `Type` the
lowercased sheet name. -/
def extract_sheet_data (s : Sheet) (year insurer : String) : Option (List ExtRow) :=
  if requiredColsPresent s then
    some ((locatedDataRows s).map (fun row =>
      { year := year
        insurer := insurer
        type := lowerStr s.name
        policyNumber := getCol (locatedCols s) row "policy number"
        premium := getCol (locatedCols s) row "total premium"
        datatype := "str" }))
  else
    none

/-- Line 66: the sheet-name selection rule. -/
def sheetSelected (s : Sheet) : Bool :=
  strLead "base" (lowerStr s.name) || strLead "reward" (lowerStr s.name)

/-- `DataExtractor.extract_data_from_file` (lines 60–73): walk the
workbook's sheets, keep those selected by name, concatenate the extracted
frames, skipping sheets whose extraction returned `None`. -/
def extract_data_from_file (sheets : List Sheet) (year insurer : String) : List ExtRow :=
  (sheets.filter sheetSelected).flatMap
    (fun s => (extract_sheet_data s year insurer).getD [])

/-! ## Aggregator — `DataComparer.aggregate_given_data`, lines 77–93

For this stage the Given rows are typed: the year label has already been
coerced to an integer (`astype(int)`, line 113, fatal on non-numeric
labels — outside every claim) and the premium is numeric (`Int`; a
non-summable premium is a fatal aggregation error, likewise outside every
claim). -/

/-- A row of the concatenated pre-aggregation Given table. -/
structure GRow where
  year : Int
  insurer : String
  type : String
  policyNumber : String
  premium : Int
  datatype : String
deriving DecidableEq

/-- Line 86's lambda: map a type to its canonical aggregation bucket. -/
def canonType (x : String) : String :=
  if strLead "base" x then "base" else if strLead "reward" x then "reward" else x

/-- A composite join/grouping key: (year, insurer, type, policy number). -/
abbrev CKey := Int × String × String × String

/-- The grouping key of line 88: year, insurer, canonical type, policy number. -/
def aggKey (r : GRow) : CKey := (r.year, r.insurer, canonType r.type, r.policyNumber)

/-- A row of the aggregated Given table (one per group, premium summed;
`datatype` records the runtime type name of the summed value — constant
`float64` in this numeric model, never inspected by any claim). -/
structure AggRow where
  year : Int
  insurer : String
  type : String
  policyNumber : String
  premium : Int
  datatype : String
deriving DecidableEq

/-- Runtime type name of a pandas-summed premium column value. -/
def sumTypeName (_ : Int) : String := "float64"

/-- The group-by/sum of line 88 together with lines 90–92: one output row
per distinct grouping key, carrying the sum of the group's premiums. -/
def aggregate_given_rows (rows : List GRow) : List AggRow :=
  ((rows.map aggKey).dedup).map (fun k =>
    { year := k.1
      insurer := k.2.1
      type := k.2.2.1
      policyNumber := k.2.2.2
      premium := ((rows.filter (fun r => decide (aggKey r = k))).map GRow.premium).sum
      datatype := sumTypeName (((rows.filter (fun r => decide (aggKey r = k))).map GRow.premium).sum) })

/-- The concatenated Given frame handed to `compare_data`. `main` (lines
198–201) builds it with `pd.concat` when at least one extracted frame
exists, and as the schema-less `pd.DataFrame()` otherwise; `typeColPresent`
records whether the frame carries its columns (in particular `type`). -/
structure GivenDF where
  typeColPresent : Bool
  rows : List GRow
deriving DecidableEq

/-- Lines 198–201 of `main`: concatenate the per-file frames, defaulting
to the empty, column-less `pd.DataFrame()` when no file contributed rows. -/
def concatGivenFrames (frames : List (List GRow)) : GivenDF :=
  if frames.isEmpty then ⟨false, []⟩ else ⟨true, frames.flatten⟩

/-- `DataComparer.aggregate_given_data` (lines 77–93) as the caller
observes it: line 86 dereferences `given_df['type']`, which raises
a KeyError on the column-less empty frame; otherwise the group-by/sum
result is returned. -/
def aggregate_given_data (df : GivenDF) : Except String (List AggRow) :=
  if df.typeColPresent then Except.ok (aggregate_given_rows df.rows)
  else Except.error "KeyError: type"

/-! ## Reconciler — `DataComparer.compare_data`, lines 95–164 -/

/-- A row of the S3 reference table after the column bookkeeping of lines
96–100 (column names lowercased, `total premium` renamed to `premium`). -/
structure S3Row where
  year : Int
  insurer : String
  type : String
  policyNumber : String
  premium : Int
deriving DecidableEq

/-- Lines 108–112: the key-normalization loop. Note that in the source
this loop runs over `s3_df` only; the aggregated Given table is **not**
rewritten (its `year` is coerced on line 113, which our typed rows already
reflect). -/
def normalizeS3Row (r : S3Row) : S3Row :=
  { r with
    insurer := pyStripLower r.insurer
    type := pyStripLower r.type
    policyNumber := pyStripLower r.policyNumber }

def keyS (r : S3Row) : CKey := (r.year, r.insurer, r.type, r.policyNumber)

def keyA (r : AggRow) : CKey := (r.year, r.insurer, r.type, r.policyNumber)

/-- A row of the merged frame of lines 116–117. The overlapping `premium`
columns are suffixed to `premium_s3` / `premium_given` by the merge;
`none` stands for the `NaN` a full outer join places on a missing side. -/
structure MergedRow where
  year : Int
  insurer : String
  type : String
  policyNumber : String
  premium_s3 : Option Int
  premium_given : Option Int
  datatype : Option String
deriving DecidableEq

def keyM (r : MergedRow) : CKey := (r.year, r.insurer, r.type, r.policyNumber)

/-- A join pair: both sides present. -/
def mkBoth (a : S3Row) (b : AggRow) : MergedRow :=
  { year := a.year, insurer := a.insurer, type := a.type, policyNumber := a.policyNumber
    premium_s3 := some a.premium, premium_given := some b.premium
    datatype := some b.datatype }

/-- An S3 row with no Given partner. -/
def mkLeft (a : S3Row) : MergedRow :=
  { year := a.year, insurer := a.insurer, type := a.type, policyNumber := a.policyNumber
    premium_s3 := some a.premium, premium_given := none, datatype := none }

/-- A Given row with no S3 partner. -/
def mkRight (b : AggRow) : MergedRow :=
  { year := b.year, insurer := b.insurer, type := b.type, policyNumber := b.policyNumber
    premium_s3 := none, premium_given := some b.premium, datatype := some b.datatype }

/-- The contribution of one S3 row to the outer join: paired with every
key-equal aggregated Given row, or emitted alone when none exists. -/
def joinBlock (g : List AggRow) (a : S3Row) : List MergedRow :=
  let ms := g.filter (fun b => decide (keyA b = keyS a))
  if ms.isEmpty then [mkLeft a] else ms.map (mkBoth a)

/-- The full outer join of lines 116–117 (`pd.merge(..., how='outer')`):
every S3 row paired with each key-equal Given row (or emitted alone), then
the Given rows whose key occurs nowhere in the S3 table. -/
def mergeOuter (s3 : List S3Row) (g : List AggRow) : List MergedRow :=
  (s3.flatMap (joinBlock g))
  ++ (g.filter (fun b => s3.all (fun a => !decide (keyS a = keyA b)))).map mkRight

/-- A value as a `Series.get` lookup on a merged row delivers it:
`pyNone` is Python `None` (absent label), `nan` the missing-side `NaN`. -/
inductive PyCell where
  | pyNone
  | nan
  | num (q : Int)
  | str (s : String)
deriving DecidableEq

/-- `pd.isnull`: true on `None` and `NaN`. -/
def isnull : PyCell → Bool
  | .pyNone => true
  | .nan => true
  | _ => false

/-- Python `==` on fetched cells (`NaN == NaN` is false; both branches of
the status function that could see it are guarded by `pd.isnull`). -/
def pyEq : PyCell → PyCell → Bool
  | .num a, .num b => a == b
  | .str a, .str b => a == b
  | .pyNone, .pyNone => true
  | _, _ => false

/-- `row.get(label)` on a merged row: the merged frame's columns are the
four join keys, the suffixed premiums and the Given-side `datatype`; any
other label — in particular the `'total premium'` and `'premium'` labels
used by `determine_status` — yields Python `None`. -/
def mergedGet (r : MergedRow) : String → PyCell
  | "year" => .num r.year
  | "insurer" => .str r.insurer
  | "type" => .str r.type
  | "policy number" => .str r.policyNumber
  | "premium_s3" =>
    match r.premium_s3 with
    | some q => .num q
    | none => .nan
  | "premium_given" =>
    match r.premium_given with
    | some q => .num q
    | none => .nan
  | "datatype" =>
    match r.datatype with
    | some s => .str s
    | none => .nan
  | _ => .pyNone

/-- `determine_status` (lines 119–131), translated label-for-label: it
fetches `row.get('total premium')` and `row.get('premium')` and walks the
five-way classification. -/
def determine_status (row : MergedRow) : String :=
  let s3_premium := mergedGet row "total premium"
  let given_premium := mergedGet row "premium"
  if isnull s3_premium && !(isnull given_premium) then "Missing in S3"
  else if isnull given_premium && !(isnull s3_premium) then "Missing in Given"
  else if isnull s3_premium && isnull given_premium then "Both Missing"
  else if pyEq s3_premium given_premium then "Matches"
  else "Not matches"

/-- Rendering of a fetched cell inside an f-string. -/
def pyRepr : PyCell → String
  | .pyNone => "None"
  | .nan => "nan"
  | .num q => toString q
  | .str s => s

/-- `record_multivalues` (lines 137–141): only a `"Not matches"` row gets
the bracketed rendering of `row.get('total premium')` and
`row.get('premium')`; every other row gets the empty string. -/
def record_multivalues (row : MergedRow) (status : String) : String :=
  if status == "Not matches" then
    "[" ++ pyRepr (mergedGet row "total premium") ++ ", "
      ++ pyRepr (mergedGet row "premium") ++ "]"
  else ""

/-- A row of the final comparison report, in the fixed output schema
Year, Insurer, Type, Policy number, S3_premium, Given_premium, Datatype,
Status, Multivalues (lines 146–163). -/
structure OutRow where
  year : Int
  insurer : String
  type : String
  policyNumber : String
  s3Premium : Option Int
  givenPremium : Option Int
  datatype : Option String
  status : String
  multivalues : String
deriving DecidableEq

/-- `DataComparer.compare_data` (lines 95–164): aggregate the Given frame
(propagating its `KeyError` on the column-less empty frame), normalize the
S3 key columns (the source's loop touches `s3_df` only), outer-join, and
attach `Status` and `Multivalues` to each merged row. -/
def compare_data (s3 : List S3Row) (givenDF : GivenDF) : Except String (List OutRow) :=
  match aggregate_given_data givenDF with
  | .error e => .error e
  | .ok agg =>
    let s3n := s3.map normalizeS3Row
    let merged := mergeOuter s3n agg
    .ok (merged.map (fun m =>
      let st := determine_status m
      { year := m.year, insurer := m.insurer, type := m.type
        policyNumber := m.policyNumber
        s3Premium := m.premium_s3, givenPremium := m.premium_given
        datatype := m.datatype
        status := st
        multivalues := record_multivalues m st }))

/-! ## Caller-visible mutation of the input frames

`aggregate_given_data` writes on the frame its caller passed in: line 84
reassigns `given_df.columns` to their stripped lowercased forms, and line
86 stores the new column `given_df['agg_type']` on that same frame.  The
two definitions below give the state of the caller's frame after the call
returns. -/

/-- The caller's Given-frame column list after `aggregate_given_data`:
normalized in place (line 84), with `agg_type` appended (line 86; pandas
appends a new column, and overwrites in place a pre-existing one). -/
def givenColsAfterAggregate (cols : List String) : List String :=
  let n := cols.map pyStripLower
  if n.contains "agg_type" then n else n ++ ["agg_type"]

/-- The caller's Given-frame rows after `aggregate_given_data`: each row
keeps all its cells and gains the `agg_type` cell of line 86. -/
def givenRowsAfterAggregate (rows : List GRow) : List (GRow × String) :=
  rows.map (fun r => (r, canonType r.type))

/-- The column schema of the concatenated Given table in its normalized
(lowercased) form. -/
def stdGivenCols : List String :=
  ["year", "insurer", "type", "policy number", "premium", "datatype"]

/-- The column schema of the concatenated Given table exactly as the
extractor builds it (lines 48–56): capitalized display names, not yet
touched by line 84. -/
def rawGivenCols : List String :=
  ["Year", "Insurer", "Type", "Policy number", "Premium", "Datatype"]

/-! ## Concrete reconciliation inputs used by the claim theorems -/

/-- One S3 row and one Given row with identical, already-normalized keys
and equal premiums (the basic agreeing-row scenario). -/
def s3EqualCase : List S3Row := [⟨2023, "acme", "base", "p1", 100⟩]

def givenEqualCase : GivenDF := ⟨true, [⟨2023, "acme", "base", "p1", 100, "int"⟩]⟩

/-- The spec's round-trip scenario: S3 premium 500.0 for policy `p1`, and
a base-sheet row (300) plus a reward-sheet row (200) for the same policy. -/
def s3RoundTrip : List S3Row := [⟨2024, "acme", "base", "p1", 500⟩]

def givenRoundTrip : GivenDF :=
  ⟨true, [⟨2024, "acme", "base", "p1", 300, "int"⟩, ⟨2024, "acme", "reward", "p1", 200, "int"⟩]⟩

/-- Keys that differ only in the case of the insurer. -/
def s3CaseDiff : List S3Row := [⟨2023, "acme", "base", "p1", 100⟩]

def givenCaseDiff : GivenDF := ⟨true, [⟨2023, "Acme", "base", "p1", 100, "int"⟩]⟩

/-- The spec's conflict scenario: S3 premium 100 against Given premium 150. -/
def s3Conflict : List S3Row := [⟨2023, "acme", "base", "p1", 100⟩]

def givenConflict : GivenDF := ⟨true, [⟨2023, "acme", "base", "p1", 150, "int"⟩]⟩

/-! ## Further concrete values used by witnesses -/

/-- A sheet whose true header sits at raw row index 2. -/
def sampleHeaderAt2 : List (List String) :=
  [["Company report"], ["2023", "summary"], ["Policy Number", "Total Premium"], ["p1", "100"]]

/-- A well-formed base sheet. -/
def sheetGood : Sheet := ⟨"Base", [["Policy Number", "Total Premium"], ["p1", "100"]]⟩

/-- A selected sheet that lacks the required `total premium` column. -/
def sheetNoPremium : Sheet := ⟨"reward2", [["Policy Number", "Amount"], ["p2", "5"]]⟩

def gRowBase : GRow := ⟨2024, "acme", "base", "p1", 300, "int"⟩

def gRowReward : GRow := ⟨2024, "acme", "reward", "p1", 200, "int"⟩

def aggRowW : AggRow := ⟨2024, "zen", "base", "p9", 50, "float64"⟩

def s3RowW : S3Row := ⟨2023, "acme", "base", "p1", 100⟩

/-! ## Claim theorems -/

/-- C1: the claim is wrong about the code. `determine_status` fetches the
labels `total premium` and `premium`, but line 100 renamed the S3 premium
column to `premium` before the merge, whose suffixes then rename the two
premium columns to `premium_s3` / `premium_given`; both fetches therefore
yield Python `None` and **every** merged row — in particular a joined row
whose two premiums are equal — is classified `Both Missing`, never
`Matches`. -/
theorem c1_equal_premiums_classified_both_missing :
    (∀ r : MergedRow, determine_status r = "Both Missing")
    ∧ Except.map (List.map OutRow.status) (compare_data s3EqualCase givenEqualCase)
        = Except.ok ["Both Missing"] :=
  ⟨fun _ => rfl, rfl⟩

/-- C2: the claim is wrong about the code. On the round-trip input
(S3 premium 500 for policy `p1`; Given base-sheet row 300 and reward-sheet
row 200 for the same policy) the aggregation keeps the `base` and `reward`
buckets as two separate keys (300 and 200 — no key carries 500), and both
reconciliation rows come out `Both Missing`; no row is `Matches`. -/
theorem c2_roundtrip_produces_no_matches :
    (aggregate_given_rows givenRoundTrip.rows).map (fun r => (r.type, r.premium))
        = [("base", 300), ("reward", 200)]
    ∧ Except.map (List.map OutRow.status) (compare_data s3RoundTrip givenRoundTrip)
        = Except.ok ["Both Missing", "Both Missing"] :=
  ⟨rfl, rfl⟩

/-- C3: the claim is wrong about the code. The key-normalization loop of
lines 108–111 rewrites only `s3_df`; the aggregated Given table enters the
join with its original key values. With S3 insurer `acme` and Given
insurer `Acme` (same key otherwise), the join therefore produces **two**
rows — the normalized S3 key `acme` and the untouched Given key `Acme` —
instead of the single joined row the claim promises. -/
theorem c3_given_side_keys_enter_join_unnormalized :
    Except.map (List.map OutRow.insurer) (compare_data s3CaseDiff givenCaseDiff)
      = Except.ok ["acme", "Acme"] :=
  rfl

/-- C4: the claim is wrong about the code. On the conflict input
(S3 premium 100 vs aggregated Given premium 150 for the same key) the
produced row has Status `Both Missing` and Multivalues `""`, not Status
`Not matches` with Multivalues `[100, 150]` — `determine_status` never
returns `Not matches` (see C1), so `record_multivalues` always returns the
empty string. -/
theorem c4_conflict_row_has_empty_multivalues :
    Except.map (List.map (fun r => (OutRow.status r, OutRow.multivalues r)))
      (compare_data s3Conflict givenConflict) = Except.ok [("Both Missing", "")] :=
  rfl

/-- C10: with no contributed Given rows, `main` passes the column-less
`pd.DataFrame()` to `compare_data`, whose aggregation step dereferences
the absent `type` column and fails with a KeyError; no reconciliation
table (in particular none classifying every S3 key `Missing in Given`)
is returned. -/
theorem c10_empty_given_frame_fails_with_keyerror (s3 : List S3Row) :
    compare_data s3 (concatGivenFrames []) = Except.error "KeyError: type"
    ∧ ∀ out : List OutRow, compare_data s3 (concatGivenFrames []) ≠ Except.ok out :=
  ⟨rfl, fun _ h => Except.noConfusion h⟩

/-- C6: the header locator returns the index of the first sampled row
whose joined, lowercased cell text contains both `total premium` and
`policy number` as substrings (first match wins), and returns `0` when no
sampled row qualifies. -/
theorem c6_header_locator_first_match (sample : List (List String))
    (h5 : sample.length ≤ 5) :
    (∀ i (hi : i < sample.length),
        rowMatches (sample.get ⟨i, hi⟩) = true →
        (∀ j (hj : j < i), rowMatches (sample.get ⟨j, Nat.lt_trans hj hi⟩) = false) →
        headerRowIndex sample = i)
    ∧ ((∀ i (hi : i < sample.length), rowMatches (sample.get ⟨i, hi⟩) = false) →
        headerRowIndex sample = 0) := by
  constructor
  · intro i hi hm hfirst
    have hfind : sample.findIdx? rowMatches = some i := by
      rw [List.findIdx?_eq_some_iff_getElem]
      refine ⟨hi, by simpa using hm, fun j hj => ?_⟩
      simpa using hfirst j hj
    unfold headerRowIndex
    rw [hfind]
  · intro hnone
    have hfind : sample.findIdx? rowMatches = none := by
      rw [List.findIdx?_eq_none_iff]
      intro x hx
      obtain ⟨⟨j, hj⟩, rfl⟩ := List.mem_iff_get.mp hx
      exact hnone j hj
    unfold headerRowIndex
    rw [hfind]

/-- Witness for C6: on a sheet whose true header text sits at raw row 2,
the locator returns 2. -/
theorem c6_header_locator_first_match_witness :
    sampleHeaderAt2.length ≤ 5 ∧ headerRowIndex sampleHeaderAt2 = 2 :=
  ⟨by decide,
    (c6_header_locator_first_match sampleHeaderAt2 (by decide)).1 2 (by decide)
      (by decide) (by decide)⟩

/-- C7: a selected sheet whose normalized located columns lack
`policy number` or `total premium` contributes no rows: its extraction is
`none`, and the workbook's result with that sheet present equals the
result with it removed (the remaining sheets are unaffected). -/
theorem c7_sheet_missing_columns_skipped (pre post : List Sheet) (s : Sheet)
    (year insurer : String) (h : requiredColsPresent s = false) :
    extract_sheet_data s year insurer = none ∧
    extract_data_from_file (pre ++ s :: post) year insurer
      = extract_data_from_file (pre ++ post) year insurer := by
  have h1 : extract_sheet_data s year insurer = none := by
    simp [extract_sheet_data, h]
  refine ⟨h1, ?_⟩
  unfold extract_data_from_file
  by_cases hs : sheetSelected s
  · simp [List.filter_append, List.filter_cons, hs, List.flatMap_append, h1]
  · simp [List.filter_append, List.filter_cons, hs, List.flatMap_append]

/-- Witness for C7: a workbook holding a well-formed base sheet and a
reward sheet lacking `total premium` extracts exactly what the workbook
without the deficient sheet extracts. -/
theorem c7_sheet_missing_columns_skipped_witness :
    requiredColsPresent sheetNoPremium = false ∧
    extract_data_from_file [sheetGood, sheetNoPremium] "2023" "acme"
      = extract_data_from_file [sheetGood] "2023" "acme" :=
  ⟨by decide,
    (c7_sheet_missing_columns_skipped [sheetGood] [] sheetNoPremium "2023" "acme"
      (by decide)).2⟩

/-- C8: aggregation is order-independent — permuting the pre-aggregation
Given rows permutes (hence preserves as a set) the aggregated rows: the
same canonical-key groups appear, each with the same summed premium. -/
theorem c8_aggregate_invariant_under_perm (l₁ l₂ : List GRow) (h : l₁.Perm l₂) :
    (aggregate_given_rows l₁).Perm (aggregate_given_rows l₂) := by
  unfold aggregate_given_rows
  have hsum : ∀ k : CKey,
      ((l₁.filter (fun r => decide (aggKey r = k))).map GRow.premium).sum
        = ((l₂.filter (fun r => decide (aggKey r = k))).map GRow.premium).sum :=
    fun k => ((h.filter (fun r => decide (aggKey r = k))).map GRow.premium).sum_eq
  have hmap :
      ((l₂.map aggKey).dedup).map (fun k : CKey =>
        ({ year := k.1, insurer := k.2.1, type := k.2.2.1, policyNumber := k.2.2.2
           premium := ((l₁.filter (fun r => decide (aggKey r = k))).map GRow.premium).sum
           datatype := sumTypeName
             (((l₁.filter (fun r => decide (aggKey r = k))).map GRow.premium).sum) } : AggRow))
        = ((l₂.map aggKey).dedup).map (fun k : CKey =>
        ({ year := k.1, insurer := k.2.1, type := k.2.2.1, policyNumber := k.2.2.2
           premium := ((l₂.filter (fun r => decide (aggKey r = k))).map GRow.premium).sum
           datatype := sumTypeName
             (((l₂.filter (fun r => decide (aggKey r = k))).map GRow.premium).sum) } : AggRow)) := by
    refine List.map_congr_left (fun k _ => ?_)
    simp only [hsum k]
  exact (((h.map aggKey).dedup).map _).trans (hmap ▸ List.Perm.refl _)

/-- Witness for C8: swapping the two Given rows permutes (here: leaves
equal up to permutation) the aggregated table. -/
theorem c8_aggregate_invariant_under_perm_witness :
    ([gRowBase, gRowReward] : List GRow).Perm [gRowReward, gRowBase] ∧
    (aggregate_given_rows [gRowBase, gRowReward]).Perm
      (aggregate_given_rows [gRowReward, gRowBase]) :=
  ⟨by decide, c8_aggregate_invariant_under_perm _ _ (by decide)⟩

/-- In a list whose image under `f` is duplicate-free, the number of
elements mapping to a key is 1 when the key occurs and 0 otherwise. -/
lemma countP_key_nodup {α β : Type} [DecidableEq β] (f : α → β) (l : List α)
    (hnd : (l.map f).Nodup) (k : β) :
    l.countP (fun x => decide (f x = k)) = if k ∈ l.map f then 1 else 0 := by
  induction l with
  | nil => simp
  | cons a t ih =>
    simp only [List.map_cons, List.nodup_cons] at hnd
    obtain ⟨ha, ht⟩ := hnd
    rw [List.countP_cons, ih ht]
    by_cases hk : f a = k
    · subst hk
      simp [ha]
    · by_cases hm : k ∈ t.map f
      · simp [hm, hk]
      · simp [hm, hk, Ne.symm hk]

/-- Specialization of `countP_key_nodup` to the identity key. -/
lemma countP_self_nodup {β : Type} [DecidableEq β] (l : List β)
    (hnd : l.Nodup) (k : β) :
    l.countP (fun x => decide (x = k)) = if k ∈ l then 1 else 0 := by
  have h := countP_key_nodup id l (by simpa using hnd) k
  simpa using h

/-- Under a duplicate-free Given key column, each S3 row’s join block is
a single merged row carrying that S3 row’s key. -/
lemma joinBlock_map_keyM (g : List AggRow) (hg : (g.map keyA).Nodup) (a : S3Row) :
    (joinBlock g a).map keyM = [keyS a] := by
  cases hfe : g.filter (fun b => decide (keyA b = keyS a)) with
  | nil =>
    simp only [joinBlock]
    rw [hfe]
    simp [mkLeft, keyM, keyS]
  | cons b tl =>
    have hcount := countP_key_nodup keyA g hg (keyS a)
    rw [List.countP_eq_length_filter] at hcount
    have hle : (g.filter (fun b => decide (keyA b = keyS a))).length ≤ 1 := by
      rw [hcount]; split <;> simp
    rw [hfe] at hle
    have htl : tl = [] := by
      have hlen : tl.length = 0 := by simpa using hle
      exact List.eq_nil_of_length_eq_zero hlen
    subst htl
    simp only [joinBlock]
    rw [hfe]
    simp [mkBoth, keyM, keyS]

/-- The left block of the outer join carries exactly the S3 keys, in
order, when the Given key column is duplicate-free. -/
lemma mergeLeft_map_keyM (s3 : List S3Row) (g : List AggRow)
    (hg : (g.map keyA).Nodup) :
    (s3.flatMap (joinBlock g)).map keyM = s3.map keyS := by
  induction s3 with
  | nil => rfl
  | cons a t ih =>
    simp only [List.flatMap_cons, List.map_append, ih, List.map_cons]
    rw [joinBlock_map_keyM g hg a]
    rfl

/-- A key appears among the right-only join rows exactly when it is a
Given key that is not an S3 key. -/
lemma mem_rightKeys_iff (s3 : List S3Row) (g : List AggRow) (k : CKey) :
    k ∈ (g.filter (fun b => s3.all (fun a => !decide (keyS a = keyA b)))).map keyA
      ↔ (k ∈ g.map keyA ∧ k ∉ s3.map keyS) := by
  constructor
  · intro hm
    obtain ⟨b, hbf, hbk⟩ := List.mem_map.mp hm
    obtain ⟨hbg, hpb⟩ := List.mem_filter.mp hbf
    subst hbk
    refine ⟨List.mem_map_of_mem keyA hbg, ?_⟩
    intro hks
    obtain ⟨a, ha, hak⟩ := List.mem_map.mp hks
    have hall := List.all_eq_true.mp hpb a ha
    simp only [Bool.not_eq_true', decide_eq_false_iff_not] at hall
    exact hall hak
  · rintro ⟨hkg, hks⟩
    obtain ⟨b, hbg, hbk⟩ := List.mem_map.mp hkg
    refine List.mem_map.mpr ⟨b, List.mem_filter.mpr ⟨hbg, ?_⟩, hbk⟩
    rw [List.all_eq_true]
    intro a ha
    simp only [Bool.not_eq_true', decide_eq_false_iff_not]
    intro heq
    exact hks (List.mem_map.mpr ⟨a, ha, heq.trans hbk⟩)

/-- C5: when each composite key occurs at most once in the normalized S3
table and at most once in the aggregated Given table, the full outer join
emits exactly one row for every key present in either table and none for
any other key. -/
theorem c5_outer_join_key_exactly_once (s3 : List S3Row) (g : List AggRow)
    (h1 : (s3.map keyS).Nodup) (h2 : (g.map keyA).Nodup) (k : CKey) :
    (mergeOuter s3 g).countP (fun m => decide (keyM m = k))
      = if k ∈ s3.map keyS ∨ k ∈ g.map keyA then 1 else 0 := by
  unfold mergeOuter
  rw [List.countP_append]
  rw [show (fun m => decide (keyM m = k))
      = ((fun k2 : CKey => decide (k2 = k)) ∘ keyM) from rfl]
  have e1 : (s3.flatMap (joinBlock g)).countP ((fun k2 : CKey => decide (k2 = k)) ∘ keyM)
      = ((s3.flatMap (joinBlock g)).map keyM).countP (fun k2 : CKey => decide (k2 = k)) :=
    (List.countP_map (fun k2 : CKey => decide (k2 = k)) keyM (s3.flatMap (joinBlock g))).symm
  have e2 : ((g.filter (fun b => s3.all (fun a => !decide (keyS a = keyA b)))).map
        mkRight).countP ((fun k2 : CKey => decide (k2 = k)) ∘ keyM)
      = (g.filter (fun b => s3.all (fun a => !decide (keyS a = keyA b)))).countP
        (((fun k2 : CKey => decide (k2 = k)) ∘ keyM) ∘ mkRight) :=
    List.countP_map ((fun k2 : CKey => decide (k2 = k)) ∘ keyM) mkRight _
  have e3 : (g.filter (fun b => s3.all (fun a => !decide (keyS a = keyA b)))).countP
        ((fun k2 : CKey => decide (k2 = k)) ∘ keyA)
      = ((g.filter (fun b => s3.all (fun a => !decide (keyS a = keyA b)))).map
          keyA).countP (fun k2 : CKey => decide (k2 = k)) :=
    (List.countP_map (fun k2 : CKey => decide (k2 = k)) keyA _).symm
  rw [e1, mergeLeft_map_keyM s3 g h2, e2]
  rw [show (((fun k2 : CKey => decide (k2 = k)) ∘ keyM) ∘ mkRight)
      = ((fun k2 : CKey => decide (k2 = k)) ∘ keyA) from rfl]
  rw [e3]
  have hnd : ((g.filter
      (fun b => s3.all (fun a => !decide (keyS a = keyA b)))).map keyA).Nodup :=
    (List.Sublist.map keyA (List.filter_sublist g)).nodup h2
  rw [countP_self_nodup _ h1 k, countP_self_nodup _ hnd k]
  simp only [mem_rightKeys_iff]
  by_cases hs : k ∈ s3.map keyS <;> by_cases hgk : k ∈ g.map keyA <;>
    simp [hs, hgk]

/-- Witness for C5: one S3 row and one (differently keyed) Given row each
produce exactly one output row for the S3 key. -/
theorem c5_outer_join_key_exactly_once_witness :
    (([s3RowW] : List S3Row).map keyS).Nodup ∧
    (mergeOuter [s3RowW] [aggRowW]).countP
      (fun m => decide (keyM m = ((2023 : Int), "acme", "base", "p1"))) = 1 := by
  constructor
  · decide
  · have h := c5_outer_join_key_exactly_once [s3RowW] [aggRowW] (by decide) (by decide)
      ((2023 : Int), "acme", "base", "p1")
    rw [if_pos (by decide)] at h
    exact h

/-- C9 (counterexample): the claim that aggregation and comparison leave
the caller-supplied tables unchanged is false — after
`aggregate_given_data` returns, the caller's Given frame no longer has its
original columns (line 84 rewrote the names in place and line 86 stored
the extra `agg_type` column on it). -/
theorem c9_inputs_unchanged_counterexample :
    ¬ (givenColsAfterAggregate stdGivenCols = stdGivenCols) := by decide

/-- C9 (amended): each run recomputes its output purely from the input
values and retains no state, but `aggregate_given_data` does not leave the
caller's Given frame unchanged: its column names are normalized (trimmed,
lowercased) in place and an `agg_type` column is appended — on the columns
the extractor built, `Year, ..., Datatype` become
`year, ..., datatype, agg_type` — while every pre-existing row keeps all
its cell values. -/
theorem c9_aggregate_mutates_but_preserves_row_values (rows : List GRow) :
    (givenRowsAfterAggregate rows).map Prod.fst = rows ∧
    givenColsAfterAggregate rawGivenCols
      = ["year", "insurer", "type", "policy number", "premium", "datatype", "agg_type"] := by
  constructor
  · simp only [givenRowsAfterAggregate, List.map_map]
    exact List.map_id rows
  · decide

end PremiumComparator
